import Mathlib

/-!
Verification development for the Perth integration layer
(`zellij-server/src/integrations/{adapter,error,subprocess,bloodbank}.rs`).

The Rust code is shallowly embedded: machine integers become `Nat`/`Int`
with explicit wrap-around (`% 256` for the `AtomicU8` restart counter),
fallible operations return `Except`, and the async control flow of the
subprocess supervisor is modelled as a pure function over an explicit
trace of externally determined events (spawn outcomes, stream events,
health-poll results, shutdown signals).
-/

namespace Perth

/-! ### Configuration (`adapter.rs`, `AdapterConfig`) -/

/-- `AdapterConfig` from `adapter.rs` lines 128-143.  `max_restarts` is a
`u8` in the source; we model it as a `Nat` and carry the `≤ 255` bound as a
hypothesis where it matters. -/
structure AdapterConfig where
  max_restarts : Nat
  channel_capacity : Nat
  health_check_interval_secs : Nat
  call_timeout_secs : Nat
  shutdown_timeout_secs : Nat
deriving DecidableEq, Repr

/-- `AdapterConfig::default` from `adapter.rs` lines 145-155. -/
def AdapterConfig.default : AdapterConfig :=
  { max_restarts := 3
    channel_capacity := 100
    health_check_interval_secs := 5
    call_timeout_secs := 30
    shutdown_timeout_secs := 2 }

/-! ### Error taxonomy (`error.rs`) -/

/-- `IntegrationError` from `error.rs` lines 12-51. -/
inductive IntegrationError where
  | CliNotFound (cli : String)
  | SpawnFailed (msg : String)
  | ProcessExited (code : Int) (stderr : String)
  | MaxRestartsExceeded (attempts : Nat) (last_error : String)
  | ParseError (msg : String)
  | Timeout (operation : String) (duration_secs : Nat)
  | ChannelClosed
  | IoError (msg : String)
  | NotRunning
  | ShutdownRequested
deriving DecidableEq, Repr

/-- The `Display` implementation from `error.rs` lines 53-90; used by the
supervisor, which stores `e.to_string()` as `last_error`. -/
def IntegrationError.display : IntegrationError → String
  | .CliNotFound cli =>
      "CLI not found: \x27" ++ cli ++ "\x27. Is it installed and in PATH?"
  | .SpawnFailed msg => "Failed to spawn subprocess: " ++ msg
  | .ProcessExited code stderr =>
      "Process exited with code " ++ toString code ++ ": " ++ stderr
  | .MaxRestartsExceeded attempts last_error =>
      "Max restarts exceeded after " ++ toString attempts
        ++ " attempts. Last error: " ++ last_error
  | .ParseError msg => "Failed to parse CLI output: " ++ msg
  | .Timeout operation duration_secs =>
      "Timeout after " ++ toString duration_secs ++ "s waiting for: " ++ operation
  | .ChannelClosed => "Internal channel closed unexpectedly"
  | .IoError msg => "I/O error: " ++ msg
  | .NotRunning => "Subprocess is not running"
  | .ShutdownRequested => "Shutdown requested"

/-! ### Permissive UTF-8 decoding (`String::from_utf8_lossy`)

`SubprocessManager::call` decodes captured stdout/stderr with
`String::from_utf8_lossy`, which replaces each maximal invalid byte
sequence with U+FFFD and never fails.  We embed the algorithm of Rust's
`core::str` validation: the byte-range checks below are exactly the
second-byte constraints of `run_utf8_validation`, and on an invalid or
truncated sequence exactly the bytes of the rejected prefix are skipped
(one byte for a bad lead or bad second byte, two or three bytes when a
longer prefix was already accepted).  Bit masking such as `b0 & 0x1F` is
written as subtraction (`b0 - 0xC0`), which agrees on the byte ranges in
question. -/

/-- A UTF-8 continuation byte (`0x80..=0xBF`). -/
def isCont (b : Nat) : Bool := decide (0x80 ≤ b ∧ b ≤ 0xBF)

/-- Valid second byte of a three-byte sequence, per lead byte. -/
def valid3Second (b0 b1 : Nat) : Bool :=
  (b0 == 0xE0 && decide (0xA0 ≤ b1 ∧ b1 ≤ 0xBF)) ||
  (decide (0xE1 ≤ b0 ∧ b0 ≤ 0xEC) && isCont b1) ||
  (b0 == 0xED && decide (0x80 ≤ b1 ∧ b1 ≤ 0x9F)) ||
  (decide (0xEE ≤ b0 ∧ b0 ≤ 0xEF) && isCont b1)

/-- Valid second byte of a four-byte sequence, per lead byte. -/
def valid4Second (b0 b1 : Nat) : Bool :=
  (b0 == 0xF0 && decide (0x90 ≤ b1 ∧ b1 ≤ 0xBF)) ||
  (decide (0xF1 ≤ b0 ∧ b0 ≤ 0xF3) && isCont b1) ||
  (b0 == 0xF4 && decide (0x80 ≤ b1 ∧ b1 ≤ 0x8F))

/-- Scalar values produced by `String::from_utf8_lossy` on a byte string:
valid sequences decode to their code point, invalid ones contribute a
single U+FFFD per rejected prefix.  The `fuel` argument only bounds the
recursion (each step consumes at least one byte, so `fuel = length`
suffices); it makes the recursion structural. -/
def utf8LossyAux : Nat → List Nat → List Nat
  | 0, _ => []
  | _, [] => []
  | fuel + 1, b0 :: rest =>
    if b0 < 0x80 then
      b0 :: utf8LossyAux fuel rest
    else if 0xC2 ≤ b0 ∧ b0 ≤ 0xDF then
      match rest with
      | [] => [0xFFFD]
      | b1 :: rest1 =>
        if isCont b1 then
          ((b0 - 0xC0) * 0x40 + (b1 - 0x80)) :: utf8LossyAux fuel rest1
        else 0xFFFD :: utf8LossyAux fuel (b1 :: rest1)
    else if 0xE0 ≤ b0 ∧ b0 ≤ 0xEF then
      match rest with
      | [] => [0xFFFD]
      | b1 :: rest1 =>
        if valid3Second b0 b1 then
          match rest1 with
          | [] => [0xFFFD]
          | b2 :: rest2 =>
            if isCont b2 then
              ((b0 - 0xE0) * 0x1000 + (b1 - 0x80) * 0x40 + (b2 - 0x80))
                :: utf8LossyAux fuel rest2
            else 0xFFFD :: utf8LossyAux fuel (b2 :: rest2)
        else 0xFFFD :: utf8LossyAux fuel (b1 :: rest1)
    else if 0xF0 ≤ b0 ∧ b0 ≤ 0xF4 then
      match rest with
      | [] => [0xFFFD]
      | b1 :: rest1 =>
        if valid4Second b0 b1 then
          match rest1 with
          | [] => [0xFFFD]
          | b2 :: rest2 =>
            if isCont b2 then
              match rest2 with
              | [] => [0xFFFD]
              | b3 :: rest3 =>
                if isCont b3 then
                  ((b0 - 0xF0) * 0x40000 + (b1 - 0x80) * 0x1000
                    + (b2 - 0x80) * 0x40 + (b3 - 0x80)) :: utf8LossyAux fuel rest3
                else 0xFFFD :: utf8LossyAux fuel (b3 :: rest3)
            else 0xFFFD :: utf8LossyAux fuel (b2 :: rest2)
        else 0xFFFD :: utf8LossyAux fuel (b1 :: rest1)
    else 0xFFFD :: utf8LossyAux fuel rest

/-- Scalar values of `String::from_utf8_lossy` on a byte string. -/
def utf8LossyPoints (bytes : List Nat) : List Nat :=
  utf8LossyAux bytes.length bytes

/-- `String::from_utf8_lossy(bytes).to_string()`. -/
def fromUtf8Lossy (bytes : List Nat) : String :=
  String.mk ((utf8LossyPoints bytes).map Char.ofNat)

/-! ### One-shot calls (`subprocess.rs`, `SubprocessManager::call`) -/

/-- Outcome of the OS interaction inside `call` (`subprocess.rs` lines
101-132): the `timeout(...)` either elapses, or the spawn fails
(`ErrorKind::NotFound` versus any other error), or the process runs to
completion with an exit status (`success` is `ExitStatus::success()`,
`code` is `ExitStatus::code()`, which is `None` for signal deaths) and
captured stdout/stderr byte strings. -/
inductive CallOutcome where
  | timedOut
  | spawnError (notFound : Bool) (msg : String)
  | completed (success : Bool) (code : Option Int) (stdout stderr : List Nat)
deriving DecidableEq, Repr

/-- `SubprocessManager::call` from `subprocess.rs` lines 101-132, as a
function of the OS outcome. -/
def call (command : String) (cfg : AdapterConfig) (args : List String)
    (oc : CallOutcome) : Except IntegrationError String :=
  match oc with
  | .timedOut =>
      .error (.Timeout (command ++ " " ++ String.intercalate " " args)
        cfg.call_timeout_secs)
  | .spawnError notFound msg =>
      .error (if notFound then .CliNotFound command else .SpawnFailed msg)
  | .completed success code stdout stderr =>
      if success then .ok (fromUtf8Lossy stdout)
      else .error (.ProcessExited (code.getD (-1)) (fromUtf8Lossy stderr))

/-! ### Exponential backoff (`subprocess.rs`, `calculate_backoff`) -/

/-- `SubprocessManager::calculate_backoff` from `subprocess.rs` lines
391-395: `1u64 << restart_count.saturating_sub(1).min(3)` seconds.
`Nat` subtraction is saturating, and `1 <<< k = 2 ^ k` with `k ≤ 3`, so no
`u64` overflow is possible. -/
def calculate_backoff (restart_count : Nat) : Nat :=
  2 ^ (min (restart_count - 1) 3)

/-! ### Manager state (`subprocess.rs`, `SubprocessManager`)

The fields a run of the supervisor reads or writes:
`restart_count: Arc<AtomicU8>` (updates wrap mod 256), `is_healthy:
Arc<AtomicBool>`, the contents of the bounded `mpsc` output channel
(lines in production order), `child: Option<Child>` and `shutdown_tx:
Option<oneshot::Sender<()>>` (presence flags). -/
structure MState where
  restart_count : Nat
  is_healthy : Bool
  channel : List String
  hasChild : Bool
  shutdownTx : Bool
deriving DecidableEq, Repr

/-- State built by `SubprocessManager::new` (`subprocess.rs` lines 73-87):
restart count 0, unhealthy, empty bounded channel, no child, no shutdown
sender. -/
def initState : MState :=
  { restart_count := 0
    is_healthy := false
    channel := []
    hasChild := false
    shutdownTx := false }

/-- `Sender::try_send` on the bounded channel (`subprocess.rs` line 268):
appends when the channel holds fewer than `capacity` lines, otherwise the
line is dropped (the `is_err` branch only logs). -/
def trySend (capacity : Nat) (channel : List String) (line : String) : List String :=
  if channel.length < capacity then channel ++ [line] else channel

/-! ### The read loop (`subprocess.rs`, `SubprocessManager::read_loop`)

One `tokio::select!` dispatch is driven by whichever event source became
ready; we model the scheduler's choices as an explicit event list.  The
health-check arm's `if let Some(ref mut child) = self.child` always takes
the `Some` branch during the loop: `read_loop` returns `NotRunning` at
entry when `child` is `None`, and nothing inside the loop clears `child`.
`read_loop` has no `return Ok(())` inside its loop, so its result is
always an error (the `Ok(())` arm in `run_with_restart` is unreachable
and is omitted from the model). -/

/-- Result of `Child::try_wait` at a health-check tick: the process exited
(with `ExitStatus::code()`, `None` for signal death), is still running, or
polling itself failed. -/
inductive HealthPoll where
  | exited (code : Option Int)
  | running
  | pollErr
deriving DecidableEq, Repr

/-- One ready arm of the `tokio::select!` in `read_loop` (`subprocess.rs`
lines 258-327). -/
inductive ReadEvent where
  | stdoutLine (line : String)
  | stdoutEof
  | stdoutReadErr (msg : String)
  | stderrLine (line : String)
  | stderrEof
  | stderrReadErr (msg : String)
  | healthTick (poll : HealthPoll)
  | shutdownSignal
deriving DecidableEq, Repr

/-- One iteration of `read_loop`'s `select!`: the state update and, when
the arm returns, the returned error. -/
def readStep (cfg : AdapterConfig) (st : MState) : ReadEvent → MState × Option IntegrationError
  | .stdoutLine line =>
      ({ st with restart_count := 0
                 channel := trySend cfg.channel_capacity st.channel line }, none)
  | .stdoutEof => (st, some (.ProcessExited 0 "Process ended unexpectedly"))
  | .stdoutReadErr msg => (st, some (.IoError msg))
  | .stderrLine _ => (st, none)
  | .stderrEof => (st, none)
  | .stderrReadErr _ => (st, none)
  | .healthTick (.exited code) =>
      (st, some (.ProcessExited (code.getD (-1)) "Process exited during health check"))
  | .healthTick .running => ({ st with is_healthy := true }, none)
  | .healthTick .pollErr => (st, none)
  | .shutdownSignal => (st, some .ShutdownRequested)

/-- `read_loop` over a finite event trace; `none` means the trace ended
with the loop still waiting (no arm has returned yet). -/
def readLoop (cfg : AdapterConfig) : MState → List ReadEvent → MState × Option IntegrationError
  | st, [] => (st, none)
  | st, ev :: rest =>
    match readStep cfg st ev with
    | (st2, some e) => (st2, some e)
    | (st2, none) => readLoop cfg st2 rest

/-! ### The restart loop (`subprocess.rs`, `run_with_restart`) -/

/-- Outcome of one `spawn_subprocess` attempt in `run_with_restart`
(`subprocess.rs` lines 186-215): either the spawn itself fails
(`ErrorKind::NotFound` versus other OS errors), or it succeeds and the
read loop consumes the given event trace. -/
inductive AttemptSpec where
  | spawnFail (notFound : Bool) (msg : String)
  | spawnOk (events : List ReadEvent)
deriving DecidableEq, Repr

/-- Observables of a `run_with_restart` run: final manager state, the
`last_error` variable, the returned value (`none` when the trace ran out
with the loop still going), the number of spawn attempts performed, and
the backoff sleeps performed (in seconds, in order). -/
structure RunResult where
  state : MState
  lastErr : Option String
  result : Option (Except IntegrationError Unit)
  spawns : Nat
  delays : List Nat
deriving Repr

/-- The terminal `MaxRestartsExceeded` return (`subprocess.rs` lines
165-171): health flag stored false, `attempts` is the current restart
count, `last_error` defaults to "Unknown error". -/
def terminalResult (st : MState) (le : Option String) : RunResult :=
  { state := { st with is_healthy := false }
    lastErr := le
    result := some (.error (.MaxRestartsExceeded st.restart_count
      (le.getD "Unknown error")))
    spawns := 0
    delays := [] }

/-- The backoff sleep performed at the top of an iteration
(`subprocess.rs` lines 174-184): only when this is a restart
(`current_restarts > 0`). -/
def pendingBackoff (st : MState) : List Nat :=
  if 0 < st.restart_count then [calculate_backoff st.restart_count] else []

/-- State right after a successful spawn (`subprocess.rs` lines 188-190):
`self.child = Some(child)` and the health flag stored true. -/
def afterSpawn (st : MState) : MState :=
  { st with hasChild := true, is_healthy := true }

/-- Accounts one spawn attempt and its preceding backoff sleep in front of
the observables of the rest of the run. -/
def bump (r : RunResult) (ds : List Nat) : RunResult :=
  { r with spawns := r.spawns + 1, delays := ds ++ r.delays }

/-- `SubprocessManager::run_with_restart` (`subprocess.rs` lines 155-217)
over a trace of spawn-attempt outcomes.  Each iteration first checks
`current_restarts >= max_restarts` (terminal `MaxRestartsExceeded`),
sleeps the backoff when restarting, spawns, and dispatches on the read
loop's result: `ShutdownRequested` becomes `Ok(())` with the health flag
stored false; any other error is recorded in `last_error` and bumps the
`AtomicU8` restart counter (wrapping add mod 256) before the next
iteration. -/
def runWithRestart (command : String) (cfg : AdapterConfig) :
    List AttemptSpec → MState → Option String → RunResult
  | [], st, le =>
    if cfg.max_restarts ≤ st.restart_count then terminalResult st le
    else
      { state := st, lastErr := le, result := none, spawns := 0
        delays := pendingBackoff st }
  | a :: rest, st, le =>
    if cfg.max_restarts ≤ st.restart_count then terminalResult st le
    else
      match a with
      | .spawnFail notFound msg =>
        let e : IntegrationError :=
          if notFound then .CliNotFound command else .SpawnFailed msg
        bump (runWithRestart command cfg rest
          { st with restart_count := (st.restart_count + 1) % 256 }
          (some e.display)) (pendingBackoff st)
      | .spawnOk events =>
        match readLoop cfg (afterSpawn st) events with
        | (st2, some e) =>
          if e = .ShutdownRequested then
            { state := { st2 with is_healthy := false }, lastErr := le
              result := some (.ok ()), spawns := 1
              delays := pendingBackoff st }
          else
            bump (runWithRestart command cfg rest
              { st2 with restart_count := (st2.restart_count + 1) % 256 }
              (some e.display)) (pendingBackoff st)
        | (st2, none) =>
          { state := st2, lastErr := le, result := none, spawns := 1
            delays := pendingBackoff st }

/-- `SubprocessManager::start` (`subprocess.rs` lines 147-152): installs
the shutdown sender and runs `run_with_restart` with `last_error = None`. -/
def start (command : String) (cfg : AdapterConfig) (trace : List AttemptSpec)
    (st : MState) : RunResult :=
  runWithRestart command cfg trace { st with shutdownTx := true } none

/-! ### Graceful stop (`subprocess.rs`, `SubprocessManager::stop`) -/

/-- Outcome of `timeout(shutdown_timeout, child.wait())` inside `stop`:
the child exited within the deadline, waiting failed, or the deadline
elapsed. -/
inductive WaitOutcome where
  | exited
  | waitFailed (msg : String)
  | timedOut
deriving DecidableEq, Repr

/-- Signals `stop` sends to the OS process. -/
inductive ProcSignal where
  | sigterm
  | sigkill
deriving DecidableEq, Repr

/-- Observables of a `stop` call: final state, returned value, and the
signals sent to the child process. -/
structure StopResult where
  state : MState
  result : Except IntegrationError Unit
  signals : List ProcSignal
deriving Repr

/-- `SubprocessManager::stop` (`subprocess.rs` lines 333-386): takes and
fires the shutdown sender, and when a child handle is present sends
SIGTERM, waits up to `shutdown_timeout_secs` and on timeout SIGKILLs; in
every branch the child is cleared, the health flag stored false, and
`Ok(())` returned.  With no child it returns `Ok(())` immediately, with no
process interaction. -/
def stop (cfg : AdapterConfig) (st : MState) (w : WaitOutcome) : StopResult :=
  let st1 := { st with shutdownTx := false }
  if st1.hasChild then
    match w with
    | .exited =>
        { state := { st1 with is_healthy := false, hasChild := false }
          result := .ok (), signals := [.sigterm] }
    | .waitFailed _ =>
        { state := { st1 with hasChild := false, is_healthy := false }
          result := .ok (), signals := [.sigterm] }
    | .timedOut =>
        { state := { st1 with hasChild := false, is_healthy := false }
          result := .ok (), signals := [.sigterm, .sigkill] }
  else
    { state := st1, result := .ok (), signals := [] }

/-! ### Crash-classified attempt traces (viewpoint definitions)

`crashNoLine events` scans an event trace exactly as `read_loop`
dispatches it, and returns `some e` precisely when the loop terminates
with the crash-classified error `e` — a termination other than
`ShutdownRequested` — without ever having read a stdout line first.
It returns `none` when a stdout line is read before termination, when the
loop shuts down, or when the trace runs out. -/
def crashNoLine : List ReadEvent → Option IntegrationError
  | [] => none
  | .stdoutLine _ :: _ => none
  | .stdoutEof :: _ => some (.ProcessExited 0 "Process ended unexpectedly")
  | .stdoutReadErr msg :: _ => some (.IoError msg)
  | .stderrLine _ :: rest => crashNoLine rest
  | .stderrEof :: rest => crashNoLine rest
  | .stderrReadErr _ :: rest => crashNoLine rest
  | .healthTick (.exited code) :: _ =>
      some (.ProcessExited (code.getD (-1)) "Process exited during health check")
  | .healthTick .running :: rest => crashNoLine rest
  | .healthTick .pollErr :: rest => crashNoLine rest
  | .shutdownSignal :: _ => none

/-- The crash error of one spawn attempt (`some` when the attempt is
crash-classified without reading a line): a failed spawn maps to the same
error `run_with_restart` constructs, a successful spawn defers to
`crashNoLine` on its read-loop events. -/
def attemptErr (command : String) : AttemptSpec → Option IntegrationError
  | .spawnFail notFound msg =>
      some (if notFound then .CliNotFound command else .SpawnFailed msg)
  | .spawnOk events => crashNoLine events

/-- Every attempt in the trace is crash-classified with no stdout line
read. -/
def allCrashNoLine : List AttemptSpec → Bool
  | [] => true
  | .spawnFail _ _ :: rest => allCrashNoLine rest
  | .spawnOk events :: rest => (crashNoLine events).isSome && allCrashNoLine rest

/-- The `last_error` value (as stored by `run_with_restart`) after
consuming a trace of crash-classified attempts, starting from `le`. -/
def traceLastErr (command : String) : Option String → List AttemptSpec → Option String
  | le, [] => le
  | _, a :: rest =>
      traceLastErr command ((attemptErr command a).map IntegrationError.display) rest

/-! ### The Bloodbank adapter (`bloodbank.rs`)

`BloodbankAdapter::subscribe` (lines 244-312) is modelled as a resource
trace.  Channels are numbered in order of `SubprocessManager::new` calls;
a manager owns the sender half of its channel.  The spawned background
task blocks on `self.manager`'s mutex — which `subscribe` holds until it
returns — so `start()` runs on whichever manager occupies the slot when
`subscribe` returns. -/

/-- Adapter fields touched by `subscribe`: the construction counter (used
as the next fresh channel id), the manager stored in `self.manager`, and
the receiver stored in `self.raw_rx` (each named by channel id). -/
structure BloodbankState where
  nextChan : Nat
  managerSlot : Option Nat
  rawRxSlot : Option Nat
deriving DecidableEq, Repr

/-- Fresh `BloodbankAdapter` (`bloodbank.rs` lines 159-166). -/
def bloodbankInit : BloodbankState :=
  { nextChan := 0, managerSlot := none, rawRxSlot := none }

/-- Observables of one `subscribe` call: final adapter state, the returned
receiver's channel id, the channel ids whose manager (hence sender half)
is dropped without `start()` ever running, the channel ids whose receiver
half is dropped inside `subscribe`, and the channel id of the manager the
spawned task runs `start()` on. -/
structure SubscribeResult where
  state : BloodbankState
  result : Except IntegrationError Nat
  droppedUnstarted : List Nat
  droppedReceivers : List Nat
  started : Option Nat
deriving Repr

/-- `BloodbankAdapter::subscribe` (`bloodbank.rs` lines 244-312), step by
step: construct manager/receiver `c1` and store both; under the held
mutex, spawn the start task; construct a second manager/receiver `c2`;
`take()` the first manager out of the slot (it is dropped at the end of
`subscribe`, together with `c2`'s receiver, which is never stored); return
the stored receiver `c1`.  The fallback branch (receiver already taken by
someone else) constructs and starts a third manager; the final
`Err(NotRunning)` branch is unreachable because the slot was just filled. -/
def bloodbankSubscribe (st0 : BloodbankState) : SubscribeResult :=
  let c1 := st0.nextChan
  let replaced := st0.managerSlot.toList
  let replacedRx := st0.rawRxSlot.toList
  let st1 : BloodbankState :=
    { nextChan := c1 + 1, managerSlot := some c1, rawRxSlot := some c1 }
  match st1.managerSlot with
  | some _ =>
    let c2 := st1.nextChan
    let old := st1.managerSlot.toList
    let st2 : BloodbankState :=
      { nextChan := c2 + 1, managerSlot := some c2, rawRxSlot := st1.rawRxSlot }
    match st2.rawRxSlot with
    | some rx =>
        { state := { st2 with rawRxSlot := none }
          result := .ok rx
          droppedUnstarted := replaced ++ old
          droppedReceivers := replacedRx ++ [c2]
          started := st2.managerSlot }
    | none =>
        let c3 := st2.nextChan
        { state := { nextChan := c3 + 1, managerSlot := some c3, rawRxSlot := none }
          result := .ok c3
          droppedUnstarted := replaced ++ old ++ st2.managerSlot.toList
          droppedReceivers := replacedRx
          started := some c3 }
  | none =>
      { state := st1, result := .error .NotRunning
        droppedUnstarted := replaced, droppedReceivers := replacedRx
        started := none }

/-- Lines that can ever appear on channel `c` when the started manager's
subprocess produces `produced` lines: only the started manager's
`output_tx` sends anything. -/
def channelLines (r : SubscribeResult) (produced : List String) (c : Nat) : List String :=
  if r.started = some c then produced else []

/-- A receiver reports closed once the sender half of its channel is
dropped (here: its manager was dropped without being started). -/
def receiverClosed (r : SubscribeResult) (c : Nat) : Bool :=
  decide (c ∈ r.droppedUnstarted)

/-- `BloodbankAdapter::stop` (`bloodbank.rs` lines 314-321): stop the
stored manager if any (`?` propagates its error, skipping the flag
store), then store `is_running = false` and return `Ok(())`.  The third
component is the final `is_running` flag, which adapter `is_healthy()`
reads. -/
def bloodbankStop (cfg : AdapterConfig) (mgr : Option MState) (w : WaitOutcome)
    (isRunning : Bool) : Option MState × Except IntegrationError Unit × Bool :=
  match mgr with
  | some m =>
    let r := stop cfg m w
    match r.result with
    | .ok _ => (some r.state, .ok (), false)
    | .error e => (some r.state, .error e, isRunning)
  | none => (none, .ok (), false)

/-- The configuration of spec scenario (3): defaults with `max_restarts = 2`. -/
def twoRestartConfig : AdapterConfig :=
  { max_restarts := 2
    channel_capacity := 100
    health_check_interval_secs := 5
    call_timeout_secs := 30
    shutdown_timeout_secs := 2 }

/-- A small-capacity configuration used for concrete backpressure runs. -/
def capTwoConfig : AdapterConfig :=
  { max_restarts := 3
    channel_capacity := 2
    health_check_interval_secs := 5
    call_timeout_secs := 30
    shutdown_timeout_secs := 2 }

/-! ## Supporting lemmas -/

/-- The shifted-and-clamped exponent computes the spec's capped power of
two, for every restart count. -/
lemma calculate_backoff_eq_min (restart_count : Nat) :
    calculate_backoff restart_count = min (2 ^ (restart_count - 1)) 8 := by
  unfold calculate_backoff
  rcases Nat.le_total (restart_count - 1) 3 with h | h
  · have h8 : 2 ^ (restart_count - 1) ≤ 8 := by
      calc 2 ^ (restart_count - 1) ≤ 2 ^ 3 := Nat.pow_le_pow_right (by norm_num) h
        _ = 8 := by norm_num
    rw [min_eq_left h, min_eq_left h8]
  · have h8 : 8 ≤ 2 ^ (restart_count - 1) := by
      calc (8 : Nat) = 2 ^ 3 := by norm_num
        _ ≤ 2 ^ (restart_count - 1) := Nat.pow_le_pow_right (by norm_num) h
    rw [min_eq_right h, min_eq_right h8]
    norm_num

/-- `try_send` never grows the channel beyond its capacity. -/
lemma trySend_length_le (capacity : Nat) (channel : List String) (line : String)
    (h : channel.length ≤ capacity) :
    (trySend capacity channel line).length ≤ capacity := by
  unfold trySend
  split
  next hlt => simp only [List.length_append, List.length_cons, List.length_nil]; omega
  next => exact h

/-- One `select!` dispatch preserves the channel-capacity bound. -/
lemma readStep_channel_le (cfg : AdapterConfig) (st : MState) (ev : ReadEvent)
    (h : st.channel.length ≤ cfg.channel_capacity) :
    ((readStep cfg st ev).1).channel.length ≤ cfg.channel_capacity := by
  cases ev with
  | stdoutLine line => exact trySend_length_le _ _ _ h
  | healthTick poll => cases poll <;> exact h
  | stdoutEof => exact h
  | stdoutReadErr msg => exact h
  | stderrLine line => exact h
  | stderrEof => exact h
  | stderrReadErr msg => exact h
  | shutdownSignal => exact h

/-- The whole read loop preserves the channel-capacity bound. -/
lemma readLoop_channel_le (cfg : AdapterConfig) :
    ∀ (events : List ReadEvent) (st : MState),
      st.channel.length ≤ cfg.channel_capacity →
      ((readLoop cfg st events).1).channel.length ≤ cfg.channel_capacity := by
  intro events
  induction events with
  | nil => intro st h; exact h
  | cons ev rest ih =>
    intro st h
    have h2 := readStep_channel_le cfg st ev h
    rcases hs : readStep cfg st ev with ⟨st2, r⟩
    rw [hs] at h2
    cases r with
    | some e => simpa [readLoop, hs] using h2
    | none => simpa [readLoop, hs] using ih st2 h2

/-- A trace consisting only of stdout lines never terminates the read
loop: the producer always proceeds. -/
lemma readLoop_lines_none (cfg : AdapterConfig) :
    ∀ (lines : List String) (st : MState),
      (readLoop cfg st (lines.map ReadEvent.stdoutLine)).2 = none := by
  intro lines
  induction lines with
  | nil => intro st; rfl
  | cons l rest ih => intro st; simpa [readLoop, readStep] using ih _

/-- The read loop composes over concatenation of event traces while it has
not yet returned. -/
lemma readLoop_append (cfg : AdapterConfig) :
    ∀ (xs ys : List ReadEvent) (st : MState),
      (readLoop cfg st xs).2 = none →
      readLoop cfg st (xs ++ ys) = readLoop cfg (readLoop cfg st xs).1 ys := by
  intro xs
  induction xs with
  | nil => intro ys st _; rfl
  | cons ev rest ih =>
    intro ys st h
    rcases hs : readStep cfg st ev with ⟨st2, r⟩
    cases r with
    | some e => simp [readLoop, hs] at h
    | none =>
      have h2 : (readLoop cfg st2 rest).2 = none := by simpa [readLoop, hs] using h
      simp only [List.cons_append, readLoop, hs]
      exact ih ys st2 h2

/-- A crash-classified, line-free trace makes the read loop return exactly
that error, leaving the restart counter, channel, child handle and
shutdown sender untouched (only the health flag can be re-affirmed
`true` by a passing health tick). -/
lemma crashNoLine_spec (cfg : AdapterConfig) :
    ∀ (events : List ReadEvent) (e : IntegrationError),
      crashNoLine events = some e →
      e ≠ .ShutdownRequested ∧
      ∀ st : MState, ∃ b : Bool,
        readLoop cfg st events = ({ st with is_healthy := b }, some e) ∧
        (st.is_healthy = true → b = true) := by
  intro events
  induction events with
  | nil => intro e he; simp [crashNoLine] at he
  | cons ev rest ih =>
    intro e he
    cases ev with
    | stdoutLine line => simp [crashNoLine] at he
    | stdoutEof =>
      simp only [crashNoLine, Option.some.injEq] at he
      subst he
      refine ⟨by simp, fun st => ⟨st.is_healthy, ?_, fun h => h⟩⟩
      simp [readLoop, readStep]
    | stdoutReadErr msg =>
      simp only [crashNoLine, Option.some.injEq] at he
      subst he
      refine ⟨by simp, fun st => ⟨st.is_healthy, ?_, fun h => h⟩⟩
      simp [readLoop, readStep]
    | stderrLine line =>
      obtain ⟨hne, hall⟩ := ih e (by simpa [crashNoLine] using he)
      refine ⟨hne, fun st => ?_⟩
      obtain ⟨b, hb, hmono⟩ := hall st
      exact ⟨b, by simpa [readLoop, readStep] using hb, hmono⟩
    | stderrEof =>
      obtain ⟨hne, hall⟩ := ih e (by simpa [crashNoLine] using he)
      refine ⟨hne, fun st => ?_⟩
      obtain ⟨b, hb, hmono⟩ := hall st
      exact ⟨b, by simpa [readLoop, readStep] using hb, hmono⟩
    | stderrReadErr msg =>
      obtain ⟨hne, hall⟩ := ih e (by simpa [crashNoLine] using he)
      refine ⟨hne, fun st => ?_⟩
      obtain ⟨b, hb, hmono⟩ := hall st
      exact ⟨b, by simpa [readLoop, readStep] using hb, hmono⟩
    | healthTick poll =>
      cases poll with
      | exited code =>
        simp only [crashNoLine, Option.some.injEq] at he
        subst he
        refine ⟨by simp, fun st => ⟨st.is_healthy, ?_, fun h => h⟩⟩
        simp [readLoop, readStep]
      | running =>
        obtain ⟨hne, hall⟩ := ih e (by simpa [crashNoLine] using he)
        refine ⟨hne, fun st => ?_⟩
        obtain ⟨b, hb, hmono⟩ := hall { st with is_healthy := true }
        refine ⟨b, by simpa [readLoop, readStep] using hb, fun _ => hmono rfl⟩
      | pollErr =>
        obtain ⟨hne, hall⟩ := ih e (by simpa [crashNoLine] using he)
        refine ⟨hne, fun st => ?_⟩
        obtain ⟨b, hb, hmono⟩ := hall st
        exact ⟨b, by simpa [readLoop, readStep] using hb, hmono⟩
    | shutdownSignal => simp [crashNoLine] at he

/-- Once the restart counter has reached the ceiling, `run_with_restart`
returns the terminal `MaxRestartsExceeded` without consuming any further
attempt. -/
lemma runWithRestart_terminal (command : String) (cfg : AdapterConfig)
    (trace : List AttemptSpec) (st : MState) (le : Option String)
    (h : cfg.max_restarts ≤ st.restart_count) :
    runWithRestart command cfg trace st le = terminalResult st le := by
  cases trace <;> simp [runWithRestart, h]

/-- `traceLastErr` over a trace ending in attempt `a` is the display of
`a`'s crash error. -/
lemma traceLastErr_concat (command : String) (a : AttemptSpec) :
    ∀ (pre : List AttemptSpec) (le : Option String),
      traceLastErr command le (pre ++ [a]) =
        (attemptErr command a).map IntegrationError.display := by
  intro pre
  induction pre with
  | nil => intro le; rfl
  | cons b pre ih => intro le; simpa [traceLastErr] using ih _

/-- Main induction for the restart ceiling: starting with enough headroom
that exactly `tr.length` further crashes reach the ceiling, a trace of
crash-classified, line-free attempts produces exactly `tr.length` spawn
attempts and the terminal `MaxRestartsExceeded` carrying the ceiling and
the last crash's rendered error; any further attempt specifications
(`rest`) are never consumed. -/
lemma runWithRestart_allCrash (command : String) (cfg : AdapterConfig)
    (hmax : cfg.max_restarts ≤ 255) :
    ∀ (tr rest : List AttemptSpec) (st : MState) (le : Option String),
      allCrashNoLine tr = true →
      st.restart_count + tr.length = cfg.max_restarts →
      (runWithRestart command cfg (tr ++ rest) st le).spawns = tr.length ∧
      (runWithRestart command cfg (tr ++ rest) st le).state.is_healthy = false ∧
      (runWithRestart command cfg (tr ++ rest) st le).result =
        some (.error (.MaxRestartsExceeded cfg.max_restarts
          ((traceLastErr command le tr).getD "Unknown error"))) := by
  intro tr
  induction tr with
  | nil =>
    intro rest st le _ hlen
    have hc : st.restart_count = cfg.max_restarts := by simpa using hlen
    rw [List.nil_append,
      runWithRestart_terminal command cfg rest st le (le_of_eq hc.symm)]
    simp [terminalResult, traceLastErr, hc]
  | cons a tr ih =>
    intro rest st le hall hlen
    have hlt : st.restart_count < cfg.max_restarts := by
      simp only [List.length_cons] at hlen; omega
    have hnot : ¬ cfg.max_restarts ≤ st.restart_count := by omega
    have hmod : (st.restart_count + 1) % 256 = st.restart_count + 1 :=
      Nat.mod_eq_of_lt (by omega)
    cases a with
    | spawnFail notFound msg =>
      have hall2 : allCrashNoLine tr = true := by simpa [allCrashNoLine] using hall
      have hrec := ih rest
        { st with restart_count := (st.restart_count + 1) % 256 }
        (some (IntegrationError.display
          (if notFound then .CliNotFound command else .SpawnFailed msg)))
        hall2
        (by simp only [List.length_cons] at hlen; simp [hmod]; omega)
      simp only [List.cons_append, runWithRestart, hnot, if_false, bump]
      refine ⟨?_, hrec.2.1, ?_⟩
      · simpa only [List.length_cons] using congrArg (fun n => n + 1) hrec.1
      · simpa [traceLastErr, attemptErr] using hrec.2.2
    | spawnOk events =>
      have hall2 : allCrashNoLine tr = true := by
        simp [allCrashNoLine, Bool.and_eq_true] at hall; exact hall.2
      have hsome : (crashNoLine events).isSome = true := by
        simp [allCrashNoLine, Bool.and_eq_true] at hall; exact hall.1
      obtain ⟨e, he⟩ := Option.isSome_iff_exists.mp hsome
      obtain ⟨hne, hallst⟩ := crashNoLine_spec cfg events e he
      obtain ⟨b, hb, _⟩ := hallst (afterSpawn st)
      have hrec := ih rest
        { { afterSpawn st with is_healthy := b } with
            restart_count := ({ afterSpawn st with is_healthy := b }.restart_count + 1) % 256 }
        (some e.display)
        hall2
        (by simp only [List.length_cons] at hlen; simp [afterSpawn, hmod]; omega)
      simp only [List.cons_append, runWithRestart, hnot, if_false, hb, hne, bump]
      refine ⟨?_, hrec.2.1, ?_⟩
      · simpa only [List.length_cons] using congrArg (fun n => n + 1) hrec.1
      · simpa [traceLastErr, attemptErr, he] using hrec.2.2

/-! ## Claims -/

/-- C2: for restart_count in 1..5 the backoff delay is exactly
2^(restart_count - 1) seconds capped at 8 — the sequence 1, 2, 4, 8, 8
seconds, exact integers — and the capped formula holds for every
restart count. -/
theorem backoff_formula :
    calculate_backoff 1 = 1 ∧ calculate_backoff 2 = 2 ∧
    calculate_backoff 3 = 4 ∧ calculate_backoff 4 = 8 ∧
    calculate_backoff 5 = 8 ∧
    ∀ restart_count : Nat,
      calculate_backoff restart_count = min (2 ^ (restart_count - 1)) 8 :=
  ⟨by decide, by decide, by decide, by decide, by decide,
    calculate_backoff_eq_min⟩

/-- C3: `call` returns `Ok` of the permissively decoded stdout on a
success exit, `ProcessExited` with exit code (`-1` for a codeless status)
and decoded stderr on a failure exit, `CliNotFound` for an absent
executable, `SpawnFailed` for other spawn errors, and `Timeout` — with no
output attached — when the deadline elapses.  The final conjuncts witness
that the decoding is permissive: valid text round-trips and invalid or
truncated sequences are replaced, never failed. -/
theorem call_result_spec :
    (∀ (command : String) (cfg : AdapterConfig) (args : List String)
        (code : Option Int) (stdout stderr : List Nat),
      call command cfg args (.completed true code stdout stderr) =
        .ok (fromUtf8Lossy stdout)) ∧
    (∀ (command : String) (cfg : AdapterConfig) (args : List String)
        (code : Option Int) (stdout stderr : List Nat),
      call command cfg args (.completed false code stdout stderr) =
        .error (.ProcessExited (code.getD (-1)) (fromUtf8Lossy stderr))) ∧
    (∀ (command : String) (cfg : AdapterConfig) (args : List String) (msg : String),
      call command cfg args (.spawnError true msg) =
        .error (.CliNotFound command)) ∧
    (∀ (command : String) (cfg : AdapterConfig) (args : List String) (msg : String),
      call command cfg args (.spawnError false msg) =
        .error (.SpawnFailed msg)) ∧
    (∀ (command : String) (cfg : AdapterConfig) (args : List String),
      call command cfg args .timedOut =
        .error (.Timeout (command ++ " " ++ String.intercalate " " args)
          cfg.call_timeout_secs)) ∧
    fromUtf8Lossy [0x68, 0x69] = "hi" ∧
    fromUtf8Lossy [0xFF, 0x68, 0x69] = "�hi" ∧
    fromUtf8Lossy [0xE2, 0x82] = "�" := by
  refine ⟨fun _ _ _ _ _ _ => rfl, fun _ _ _ _ _ _ => rfl,
    fun _ _ _ _ => rfl, fun _ _ _ _ => rfl, fun _ _ _ => rfl,
    by decide, by decide, by decide⟩

/-- C9 counterexample: with `max_restarts = 2` and a target that crashes
immediately on every spawn, the run performs 2 spawn attempts but only a
single backoff sleep of 1 second — not the claimed two delays of 1s then
2s. -/
theorem two_restart_scenario_counterexample :
    (runWithRestart "bloodbank" twoRestartConfig
      [.spawnOk [.stdoutEof], .spawnOk [.stdoutEof], .spawnOk [.stdoutEof]]
      initState none).delays = [1] ∧
    (runWithRestart "bloodbank" twoRestartConfig
      [.spawnOk [.stdoutEof], .spawnOk [.stdoutEof], .spawnOk [.stdoutEof]]
      initState none).delays ≠ [1, 2] ∧
    (runWithRestart "bloodbank" twoRestartConfig
      [.spawnOk [.stdoutEof], .spawnOk [.stdoutEof], .spawnOk [.stdoutEof]]
      initState none).spawns = 2 :=
  ⟨rfl, by decide, rfl⟩

/-- C9 (amended): with `max_restarts = 2` and a target that exits
immediately with failure, the background loop performs exactly 2 spawn
attempts separated by a single backoff delay of 1 second, then terminates
with `MaxRestartsExceeded` reporting `attempts = 2`. -/
theorem two_restart_scenario_amended :
    (runWithRestart "bloodbank" twoRestartConfig
      [.spawnOk [.stdoutEof], .spawnOk [.stdoutEof], .spawnOk [.stdoutEof]]
      initState none).spawns = 2 ∧
    (runWithRestart "bloodbank" twoRestartConfig
      [.spawnOk [.stdoutEof], .spawnOk [.stdoutEof], .spawnOk [.stdoutEof]]
      initState none).delays = [calculate_backoff 1] ∧
    calculate_backoff 1 = 1 ∧
    (runWithRestart "bloodbank" twoRestartConfig
      [.spawnOk [.stdoutEof], .spawnOk [.stdoutEof], .spawnOk [.stdoutEof]]
      initState none).result =
      some (.error (.MaxRestartsExceeded 2
        "Process exited with code 0: Process ended unexpectedly")) :=
  ⟨rfl, rfl, rfl, rfl⟩

/-- C10: one `BloodbankAdapter::subscribe` call constructs two managers;
the receiver returned to the caller is the first manager's, yet that
manager is removed from the adapter and dropped without ever being
started (dropping the sender half of the returned channel), while
`start()` runs on the second manager, whose own receiver was discarded.
Consequently the returned receiver can never yield a subprocess output
line and reports closed. -/
theorem bloodbank_subscribe_channel_mixup :
    (bloodbankSubscribe bloodbankInit).state.nextChan = 2 ∧
    (bloodbankSubscribe bloodbankInit).result = .ok 0 ∧
    (bloodbankSubscribe bloodbankInit).started = some 1 ∧
    (bloodbankSubscribe bloodbankInit).droppedUnstarted = [0] ∧
    (bloodbankSubscribe bloodbankInit).droppedReceivers = [1] ∧
    receiverClosed (bloodbankSubscribe bloodbankInit) 0 = true ∧
    (∀ produced : List String,
      channelLines (bloodbankSubscribe bloodbankInit) produced 0 = []) :=
  ⟨rfl, rfl, rfl, rfl, rfl, rfl, fun _ => rfl⟩

/-- C7 counterexample: after a detected crash (the restart counter has
been bumped to 1) and before the next restart attempt, the health flag is
still `true` — `run_with_restart`'s crash branch does not store `false`. -/
theorem health_flag_crash_counterexample :
    (runWithRestart "bloodbank" AdapterConfig.default
      [.spawnOk [.stdoutEof]] initState none).state.restart_count = 1 ∧
    (runWithRestart "bloodbank" AdapterConfig.default
      [.spawnOk [.stdoutEof]] initState none).result = none ∧
    (runWithRestart "bloodbank" AdapterConfig.default
      [.spawnOk [.stdoutEof]] initState none).state.is_healthy = true :=
  ⟨rfl, rfl, rfl⟩

/-- C1 counterexample: with `max_restarts = 2` and every read loop ending
in a crash-classified `ProcessExited` error (each run reads one stdout
line first, resetting the restart counter), a third spawn attempt occurs
and no `MaxRestartsExceeded` is produced — refuting the claim that N
crash-terminated runs yield exactly N spawn attempts. -/
theorem restart_ceiling_counterexample :
    (readLoop twoRestartConfig (afterSpawn initState)
      [.stdoutLine "x", .stdoutEof]).2 =
      some (.ProcessExited 0 "Process ended unexpectedly") ∧
    twoRestartConfig.max_restarts = 2 ∧
    (runWithRestart "bloodbank" twoRestartConfig
      [.spawnOk [.stdoutLine "x", .stdoutEof],
       .spawnOk [.stdoutLine "x", .stdoutEof],
       .spawnOk [.stdoutLine "x", .stdoutEof]] initState none).spawns = 3 ∧
    (runWithRestart "bloodbank" twoRestartConfig
      [.spawnOk [.stdoutLine "x", .stdoutEof],
       .spawnOk [.stdoutLine "x", .stdoutEof],
       .spawnOk [.stdoutLine "x", .stdoutEof]] initState none).result = none :=
  ⟨rfl, rfl, rfl, rfl⟩

/-- C1 (amended): with `max_restarts = N` and a run in which every spawn
attempt fails or every read loop ends in a crash-classified error without
any stdout line having been read, the loop performs exactly N spawn
attempts and returns `MaxRestartsExceeded` carrying attempt count N and
the rendering of the last observed error, with the health flag stored
false; later attempt specifications are never consumed (no (N+1)-th spawn
attempt). -/
theorem restart_ceiling_amended
    (command : String) (cfg : AdapterConfig) (pre rest : List AttemptSpec)
    (a : AttemptSpec) (e : IntegrationError)
    (hmax : cfg.max_restarts ≤ 255)
    (hN : pre.length + 1 = cfg.max_restarts)
    (hall : allCrashNoLine (pre ++ [a]) = true)
    (hlast : attemptErr command a = some e) :
    (runWithRestart command cfg ((pre ++ [a]) ++ rest) initState none).spawns
        = cfg.max_restarts ∧
    (runWithRestart command cfg ((pre ++ [a]) ++ rest) initState none).state.is_healthy
        = false ∧
    (runWithRestart command cfg ((pre ++ [a]) ++ rest) initState none).result =
      some (.error (.MaxRestartsExceeded cfg.max_restarts e.display)) := by
  have hlen : initState.restart_count + (pre ++ [a]).length = cfg.max_restarts := by
    simp only [initState, List.length_append, List.length_cons, List.length_nil]
    omega
  have h := runWithRestart_allCrash command cfg hmax (pre ++ [a]) rest
    initState none hall hlen
  have hterr : traceLastErr command none (pre ++ [a]) = some e.display := by
    rw [traceLastErr_concat, hlast]; rfl
  refine ⟨?_, h.2.1, ?_⟩
  · rw [h.1]
    simp only [List.length_append, List.length_cons, List.length_nil]
    omega
  · rw [h.2.2, hterr]
    rfl

/-- Witness for the amended C1 theorem at `max_restarts = 2` with two
immediately crashing spawn attempts. -/
theorem restart_ceiling_amended_witness :
    (runWithRestart "bloodbank" twoRestartConfig
      (([AttemptSpec.spawnOk [ReadEvent.stdoutEof]] ++
        [AttemptSpec.spawnOk [ReadEvent.stdoutEof]]) ++ [])
      initState none).spawns = twoRestartConfig.max_restarts ∧
    (runWithRestart "bloodbank" twoRestartConfig
      (([AttemptSpec.spawnOk [ReadEvent.stdoutEof]] ++
        [AttemptSpec.spawnOk [ReadEvent.stdoutEof]]) ++ [])
      initState none).state.is_healthy = false ∧
    (runWithRestart "bloodbank" twoRestartConfig
      (([AttemptSpec.spawnOk [ReadEvent.stdoutEof]] ++
        [AttemptSpec.spawnOk [ReadEvent.stdoutEof]]) ++ [])
      initState none).result =
      some (.error (.MaxRestartsExceeded twoRestartConfig.max_restarts
        (IntegrationError.ProcessExited 0 "Process ended unexpectedly").display)) :=
  restart_ceiling_amended "bloodbank" twoRestartConfig
    [AttemptSpec.spawnOk [ReadEvent.stdoutEof]] []
    (AttemptSpec.spawnOk [ReadEvent.stdoutEof])
    (.ProcessExited 0 "Process ended unexpectedly")
    (by decide) (by decide) (by decide) (by decide)

/-- C4: the read loop never blocks on the output channel — a channel
within its capacity bound stays within it across any event trace, a trace
of stdout lines never stalls or terminates the producer loop, and a line
arriving at a full channel is dropped (channel unchanged) while the loop
continues. -/
theorem read_loop_backpressure (cfg : AdapterConfig) (st : MState)
    (events : List ReadEvent)
    (h : st.channel.length ≤ cfg.channel_capacity) :
    ((readLoop cfg st events).1).channel.length ≤ cfg.channel_capacity ∧
    (∀ lines : List String,
      (readLoop cfg st (lines.map ReadEvent.stdoutLine)).2 = none) ∧
    (∀ line : String, st.channel.length = cfg.channel_capacity →
      (readStep cfg st (.stdoutLine line)).1.channel = st.channel ∧
      (readStep cfg st (.stdoutLine line)).2 = none) := by
  refine ⟨readLoop_channel_le cfg events st h,
    fun lines => readLoop_lines_none cfg lines st,
    fun line hfull => ⟨?_, rfl⟩⟩
  simp [readStep, trySend, hfull]

/-- Witness for C4: capacity 2, full channel, a third line is dropped and
the bound holds. -/
theorem read_loop_backpressure_witness :
    ((readLoop capTwoConfig { initState with channel := ["a", "b"] }
      [ReadEvent.stdoutLine "c"]).1).channel.length ≤ capTwoConfig.channel_capacity ∧
    (∀ lines : List String,
      (readLoop capTwoConfig { initState with channel := ["a", "b"] }
        (lines.map ReadEvent.stdoutLine)).2 = none) ∧
    (∀ line : String,
      ({ initState with channel := ["a", "b"] } : MState).channel.length
          = capTwoConfig.channel_capacity →
      (readStep capTwoConfig { initState with channel := ["a", "b"] }
        (.stdoutLine line)).1.channel
          = ({ initState with channel := ["a", "b"] } : MState).channel ∧
      (readStep capTwoConfig { initState with channel := ["a", "b"] }
        (.stdoutLine line)).2 = none) :=
  read_loop_backpressure capTwoConfig { initState with channel := ["a", "b"] }
    [ReadEvent.stdoutLine "c"] (by decide)

/-- C5: a successfully read stdout line stores zero into the shared
restart counter at that instant; no read-loop dispatch ever increases the
counter; and a crash that follows a successful line read is counted from
zero — the counter after that crash is 1, whatever it was before the
attempt. -/
theorem restart_count_reset_on_line :
    (∀ (cfg : AdapterConfig) (st : MState) (line : String),
      ((readStep cfg st (.stdoutLine line)).1).restart_count = 0) ∧
    (∀ (cfg : AdapterConfig) (st : MState) (ev : ReadEvent),
      ((readStep cfg st ev).1).restart_count = 0 ∨
      ((readStep cfg st ev).1).restart_count = st.restart_count) ∧
    (∀ (command : String) (cfg : AdapterConfig) (st : MState) (le : Option String)
        (line : String) (post : List ReadEvent) (e : IntegrationError),
      st.restart_count < cfg.max_restarts →
      crashNoLine post = some e →
      (runWithRestart command cfg
        [.spawnOk (.stdoutLine line :: post)] st le).state.restart_count = 1) := by
  refine ⟨fun cfg st line => rfl, ?_, ?_⟩
  · intro cfg st ev
    cases ev with
    | stdoutLine line => exact Or.inl rfl
    | healthTick poll => cases poll <;> exact Or.inr rfl
    | stdoutEof => exact Or.inr rfl
    | stdoutReadErr msg => exact Or.inr rfl
    | stderrLine line => exact Or.inr rfl
    | stderrEof => exact Or.inr rfl
    | stderrReadErr msg => exact Or.inr rfl
    | shutdownSignal => exact Or.inr rfl
  · intro command cfg st le line post e hlt he
    have hnot : ¬ cfg.max_restarts ≤ st.restart_count := not_le.mpr hlt
    obtain ⟨hne, hall⟩ := crashNoLine_spec cfg post e he
    obtain ⟨b, hb, _⟩ :=
      hall ((readStep cfg (afterSpawn st) (.stdoutLine line)).1)
    have hr : readLoop cfg (afterSpawn st) (ReadEvent.stdoutLine line :: post) =
        ({ (readStep cfg (afterSpawn st) (.stdoutLine line)).1 with
            is_healthy := b }, some e) := by
      simpa [readLoop] using hb
    simp only [runWithRestart, hnot, if_false, hr, hne, bump]
    rcases le_or_lt cfg.max_restarts 1 with h1 | h1
    · simp [runWithRestart, terminalResult, readStep, h1]
    · simp [runWithRestart, terminalResult, readStep, not_le.mpr h1]

/-- Witness for C5 at a concrete line-then-crash run starting from the
fresh manager state. -/
theorem restart_count_reset_on_line_witness :
    ((readStep AdapterConfig.default initState (.stdoutLine "a")).1).restart_count = 0 ∧
    (runWithRestart "x" AdapterConfig.default
      [.spawnOk (.stdoutLine "a" :: [ReadEvent.stdoutEof])]
      initState none).state.restart_count = 1 :=
  ⟨restart_count_reset_on_line.1 AdapterConfig.default initState "a",
    restart_count_reset_on_line.2.2 "x" AdapterConfig.default initState none "a"
      [ReadEvent.stdoutEof] (.ProcessExited 0 "Process ended unexpectedly")
      (by decide) (by decide)⟩

/-- C6: the shutdown signal makes the dispatch return `ShutdownRequested`
immediately with no state change, and `run_with_restart` translates that
outcome into `Ok(())`: the final state is the post-read-loop state with
only the health flag stored false (in particular the restart counter is
not incremented), no backoff is slept after the signal (only the
pre-spawn backoff appears, which is empty on a fresh start). -/
theorem shutdown_non_crash_exit :
    (∀ (cfg : AdapterConfig) (st : MState),
      readStep cfg st .shutdownSignal = (st, some .ShutdownRequested)) ∧
    (∀ (command : String) (cfg : AdapterConfig) (st : MState) (le : Option String)
        (pre : List ReadEvent) (rest : List AttemptSpec),
      st.restart_count < cfg.max_restarts →
      (readLoop cfg (afterSpawn st) pre).2 = none →
      (runWithRestart command cfg
          (.spawnOk (pre ++ [.shutdownSignal]) :: rest) st le).result
        = some (.ok ()) ∧
      (runWithRestart command cfg
          (.spawnOk (pre ++ [.shutdownSignal]) :: rest) st le).state
        = { (readLoop cfg (afterSpawn st) pre).1 with is_healthy := false } ∧
      (runWithRestart command cfg
          (.spawnOk (pre ++ [.shutdownSignal]) :: rest) st le).spawns = 1 ∧
      (runWithRestart command cfg
          (.spawnOk (pre ++ [.shutdownSignal]) :: rest) st le).delays
        = pendingBackoff st) ∧
    pendingBackoff initState = [] := by
  refine ⟨fun cfg st => rfl, ?_, rfl⟩
  intro command cfg st le pre rest hlt hpre
  have hnot : ¬ cfg.max_restarts ≤ st.restart_count := not_le.mpr hlt
  have happ := readLoop_append cfg pre [.shutdownSignal] (afterSpawn st) hpre
  have hsh : readLoop cfg (readLoop cfg (afterSpawn st) pre).1 [.shutdownSignal]
      = ((readLoop cfg (afterSpawn st) pre).1, some .ShutdownRequested) := rfl
  rw [hsh] at happ
  simp [runWithRestart, hnot, happ]

/-- Witness for C6: a stderr line followed by the shutdown signal on a
fresh manager. -/
theorem shutdown_non_crash_exit_witness :
    (runWithRestart "x" AdapterConfig.default
        [.spawnOk ([ReadEvent.stderrLine "w"] ++ [.shutdownSignal])]
        initState none).result = some (.ok ()) ∧
    (runWithRestart "x" AdapterConfig.default
        [.spawnOk ([ReadEvent.stderrLine "w"] ++ [.shutdownSignal])]
        initState none).state
      = { (readLoop AdapterConfig.default (afterSpawn initState)
            [ReadEvent.stderrLine "w"]).1 with is_healthy := false } ∧
    (runWithRestart "x" AdapterConfig.default
        [.spawnOk ([ReadEvent.stderrLine "w"] ++ [.shutdownSignal])]
        initState none).spawns = 1 ∧
    (runWithRestart "x" AdapterConfig.default
        [.spawnOk ([ReadEvent.stderrLine "w"] ++ [.shutdownSignal])]
        initState none).delays = pendingBackoff initState :=
  shutdown_non_crash_exit.2.1 "x" AdapterConfig.default initState none
    [ReadEvent.stderrLine "w"] [] (by decide) (by decide)

/-- C7 (amended): the health flag is stored false on `stop()` whenever a
child handle is present, on terminal failure (`MaxRestartsExceeded`), and
on a shutdown exit of the read loop; but on a detected crash before the
next restart attempt it is NOT stored false — it keeps the value affirmed
at spawn (true) until the next spawn or the terminal failure. -/
theorem health_flag_points_amended :
    (∀ (cfg : AdapterConfig) (st : MState) (w : WaitOutcome),
      st.hasChild = true → (stop cfg st w).state.is_healthy = false) ∧
    (∀ (command : String) (cfg : AdapterConfig) (trace : List AttemptSpec)
        (st : MState) (le : Option String),
      cfg.max_restarts ≤ st.restart_count →
      (runWithRestart command cfg trace st le).state.is_healthy = false) ∧
    (∀ (command : String) (cfg : AdapterConfig) (st : MState) (le : Option String)
        (rest : List AttemptSpec),
      st.restart_count < cfg.max_restarts →
      (runWithRestart command cfg
        (.spawnOk [.shutdownSignal] :: rest) st le).state.is_healthy = false) ∧
    (∀ (command : String) (cfg : AdapterConfig) (st : MState) (le : Option String)
        (events : List ReadEvent) (e : IntegrationError),
      st.restart_count + 1 < cfg.max_restarts →
      crashNoLine events = some e →
      (runWithRestart command cfg
        [.spawnOk events] st le).state.is_healthy = true) := by
  refine ⟨?_, ?_, ?_, ?_⟩
  · intro cfg st w h
    cases w <;> simp [stop, h]
  · intro command cfg trace st le h
    rw [runWithRestart_terminal command cfg trace st le h]
    rfl
  · intro command cfg st le rest hlt
    have hnot : ¬ cfg.max_restarts ≤ st.restart_count := not_le.mpr hlt
    simp [runWithRestart, hnot, readLoop, readStep]
  · intro command cfg st le events e hlt2 he
    have hnot : ¬ cfg.max_restarts ≤ st.restart_count := by omega
    obtain ⟨hne, hall⟩ := crashNoLine_spec cfg events e he
    obtain ⟨b, hb, hmono⟩ := hall (afterSpawn st)
    have hbtrue : b = true := hmono rfl
    subst hbtrue
    have hle : ((afterSpawn st).restart_count + 1) % 256 ≤ st.restart_count + 1 :=
      Nat.mod_le _ _
    have hnot2 : ¬ cfg.max_restarts ≤
        (({ afterSpawn st with is_healthy := true } : MState).restart_count + 1) % 256 := by
      simp only [afterSpawn] at hle ⊢
      omega
    simp [runWithRestart, hnot, hb, hne, hnot2, bump]

/-- Witness for the amended C7 theorem: concrete stop, terminal, shutdown
and crash-pending states. -/
theorem health_flag_points_amended_witness :
    (stop AdapterConfig.default { initState with hasChild := true }
      WaitOutcome.exited).state.is_healthy = false ∧
    (runWithRestart "x" AdapterConfig.default []
      { initState with restart_count := 3 } none).state.is_healthy = false ∧
    (runWithRestart "x" AdapterConfig.default
      [.spawnOk [.shutdownSignal]] initState none).state.is_healthy = false ∧
    (runWithRestart "x" AdapterConfig.default
      [.spawnOk [.stdoutEof]] initState none).state.is_healthy = true :=
  ⟨health_flag_points_amended.1 AdapterConfig.default
      { initState with hasChild := true } WaitOutcome.exited rfl,
    health_flag_points_amended.2.1 "x" AdapterConfig.default []
      { initState with restart_count := 3 } none (by decide),
    health_flag_points_amended.2.2.1 "x" AdapterConfig.default initState none []
      (by decide),
    health_flag_points_amended.2.2.2 "x" AdapterConfig.default initState none
      [ReadEvent.stdoutEof] (.ProcessExited 0 "Process ended unexpectedly")
      (by decide) (by decide)⟩

/-- C8: `stop` always returns success; with no child present it performs
no process interaction; on the never-started manager it touches no
process and the health flag reads false afterwards; from any state
satisfying the reachable-state invariant (a childless manager is
unhealthy — it holds initially and `stop` preserves it), a `stop`
leaves the health flag false, and a second `stop` succeeds again with no
process interaction and the flag still false.  The adapter-level `stop`
also always succeeds and clears the adapter's running flag (which its
`is_healthy()` reads). -/
theorem stop_idempotent :
    (∀ (cfg : AdapterConfig) (st : MState) (w : WaitOutcome),
      (stop cfg st w).result = .ok ()) ∧
    (∀ (cfg : AdapterConfig) (st : MState) (w : WaitOutcome),
      st.hasChild = false → (stop cfg st w).signals = []) ∧
    (∀ (cfg : AdapterConfig) (w : WaitOutcome),
      (stop cfg initState w).signals = [] ∧
      (stop cfg initState w).state.is_healthy = false) ∧
    (∀ (cfg : AdapterConfig) (st : MState) (w w2 : WaitOutcome),
      (st.hasChild = false → st.is_healthy = false) →
      (stop cfg st w).state.is_healthy = false ∧
      (stop cfg (stop cfg st w).state w2).result = .ok () ∧
      (stop cfg (stop cfg st w).state w2).signals = [] ∧
      (stop cfg (stop cfg st w).state w2).state.is_healthy = false) ∧
    (∀ (cfg : AdapterConfig) (st : MState) (w : WaitOutcome),
      (st.hasChild = false → st.is_healthy = false) →
      ((stop cfg st w).state.hasChild = false →
        (stop cfg st w).state.is_healthy = false)) ∧
    (∀ (cfg : AdapterConfig) (mgr : Option MState) (w : WaitOutcome)
        (isRunning : Bool),
      (bloodbankStop cfg mgr w isRunning).2.1 = .ok () ∧
      (bloodbankStop cfg mgr w isRunning).2.2 = false) := by
  refine ⟨?_, ?_, ?_, ?_, ?_, ?_⟩
  · intro cfg st w
    cases hc : st.hasChild <;> cases w <;> simp [stop, hc]
  · intro cfg st w h
    cases w <;> simp [stop, h]
  · intro cfg w
    cases w <;> simp [stop, initState]
  · intro cfg st w w2 hinv
    cases hc : st.hasChild
    · cases w <;> cases w2 <;> simp [stop, hc, hinv hc]
    · cases w <;> cases w2 <;> simp [stop, hc]
  · intro cfg st w hinv
    cases hc : st.hasChild
    · cases w <;> simp [stop, hc, hinv hc]
    · cases w <;> simp [stop, hc]
  · intro cfg mgr w isRunning
    cases mgr with
    | none => exact ⟨rfl, rfl⟩
    | some m => cases hc : m.hasChild <;> cases w <;> simp [bloodbankStop, stop, hc]

/-- Witness for C8: the never-started manager, a running manager stopped
twice, and the adapter-level stop. -/
theorem stop_idempotent_witness :
    (stop AdapterConfig.default initState WaitOutcome.exited).result = .ok () ∧
    (stop AdapterConfig.default initState WaitOutcome.exited).signals = [] ∧
    (stop AdapterConfig.default { initState with hasChild := true, is_healthy := true }
      WaitOutcome.timedOut).state.is_healthy = false ∧
    (stop AdapterConfig.default
      (stop AdapterConfig.default
        { initState with hasChild := true, is_healthy := true }
        WaitOutcome.timedOut).state WaitOutcome.exited).result = .ok () ∧
    (stop AdapterConfig.default
      (stop AdapterConfig.default
        { initState with hasChild := true, is_healthy := true }
        WaitOutcome.timedOut).state WaitOutcome.exited).signals = [] ∧
    (stop AdapterConfig.default
      (stop AdapterConfig.default
        { initState with hasChild := true, is_healthy := true }
        WaitOutcome.timedOut).state WaitOutcome.exited).state.is_healthy = false :=
  have h4 := stop_idempotent.2.2.2.1 AdapterConfig.default
    { initState with hasChild := true, is_healthy := true }
    WaitOutcome.timedOut WaitOutcome.exited (fun h => absurd h (by decide))
  ⟨stop_idempotent.1 AdapterConfig.default initState WaitOutcome.exited,
    stop_idempotent.2.1 AdapterConfig.default initState WaitOutcome.exited rfl,
    h4.1, h4.2.1, h4.2.2.1, h4.2.2.2⟩

end Perth
